import Mathlib

/-!
Shallow embedding of the permission-resolution / access-control core of the
vms-backend repository (TypeScript), together with theorems checking the
natural-language specification against it.

Conventions of the embedding:
* Database tables are lists of row structures mirroring the drizzle schema
  (`src/db/schema/tables.ts`); SQL `select ... where` becomes `List.filter`,
  inner joins become nested `bind`/`map`, `limit 1` lookups become `List.find?`.
* Timestamps are `Nat` milliseconds (`Date.now()`); `Date` columns that may be
  NULL are `Option Nat`.
* JavaScript `Map` objects are modelled as functions `String → Option α`.
* bcrypt hashes are modelled as the pair (salt, input): bcrypt embeds the
  randomly drawn salt in its output, so two hashes are equal exactly when both
  the salt and the hashed input coincide.  Each call site of `bcrypt.hash`
  therefore takes the freshly drawn salt as an explicit `Nat` argument.
* Signed JWTs are modelled as an inductive of well-signed payloads plus a
  `garbage` constructor for strings that do not verify.
-/

namespace VMS

/-! ## Role/permission data model (src/db/schema/tables.ts) -/

/-- A row of the `user_roles` table (account ↔ role assignment). -/
structure UserRoleRow where
  userId : String
  roleId : String
  assignedAt : Nat
  expiresAt : Option Nat
  isActive : Bool
deriving DecidableEq, Repr

/-- A row of the `roles` table. -/
structure RoleRow where
  id : String
  organizationId : String
  name : String
  slug : String
  isActive : Bool
deriving DecidableEq, Repr

/-- A row of the `role_permissions` table (role ↔ permission grant). -/
structure RolePermissionRow where
  roleId : String
  permissionId : String
  granted : Bool
deriving DecidableEq, Repr

/-- A row of the `permissions` table. -/
structure PermissionRow where
  id : String
  slug : String
deriving DecidableEq, Repr

/-- The role/permission portion of the database. -/
structure RbacDb where
  userRoles : List UserRoleRow
  roles : List RoleRow
  rolePermissions : List RolePermissionRow
  permissions : List PermissionRow
deriving DecidableEq, Repr

/-! ## Permission resolver (src/middleware/rbac.ts, `loadUserPermissions`) -/

/-- The role ids returned by
`db.select({roleId}).from(userRoles).where(eq(userRoles.userId, userId))`
(rbac.ts lines 30-33): every `user_roles` row for the user, with no filter on
`isActive` or `expiresAt`. -/
def roleLinks (db : RbacDb) (u : String) : List String :=
  (db.userRoles.filter (fun r => r.userId == u)).map (fun r => r.roleId)

/-- The permission slugs returned by
`db.select({permissionSlug}).from(rolePermissions).innerJoin(permissions, ...)
.where(inArray(rolePermissions.roleId, roleIds))` (rbac.ts lines 45-51):
grant rows for the given role ids inner-joined to permission slugs, with no
filter on `granted` and no reference to the `roles` table. -/
def grantSlugs (db : RbacDb) (links : List String) : List String :=
  (db.rolePermissions.filter (fun rp => links.contains rp.roleId)).flatMap
    (fun rp => (db.permissions.filter (fun p => p.id == rp.permissionId)).map
      (fun p => p.slug))

/-- The resolver query performed by `loadUserPermissions` on a cache miss
(rbac.ts lines 29-53): role links, early return of the empty set when there
are none, otherwise the deduplicated slug set of the joined grant rows. -/
def resolvePermissions (db : RbacDb) (u : String) : List String :=
  let links := roleLinks db u
  if links.isEmpty then []
  else (grantSlugs db links).dedup

/-- Spec-side resolver, following the spec's words rather than the source, for
comparison with `resolvePermissions`: the union of `Permission.slug` reachable
through an active, unexpired `RoleAssignment`, an active `Role`, and a
`RolePermissionGrant` with `granted = true`. -/
def specResolvePermissions (db : RbacDb) (now : Nat) (u : String) : List String :=
  ((db.userRoles.filter (fun ur =>
      ur.userId == u && ur.isActive &&
        (match ur.expiresAt with
         | none => true
         | some e => decide (now < e)))).flatMap
    (fun ur => (db.roles.filter (fun ro => ro.id == ur.roleId && ro.isActive)).flatMap
      (fun ro => (db.rolePermissions.filter (fun rp =>
          rp.roleId == ro.id && rp.granted)).flatMap
        (fun rp => (db.permissions.filter (fun p => p.id == rp.permissionId)).map
          (fun p => p.slug))))).dedup

/-! ## Permission cache (src/middleware/rbac.ts, module-level maps) -/

/-- `CACHE_TTL_MS = 60_000` (rbac.ts line 15). -/
def CACHE_TTL_MS : Nat := 60000

/-- The two module-level `Map`s of rbac.ts (lines 13-14), modelled as
functions from account id. -/
structure CacheState where
  permissionCache : String → Option (List String)
  cacheTimestamps : String → Option Nat

/-- `Map.set`. -/
def mapSet {α : Type} (m : String → Option α) (k : String) (v : α) :
    String → Option α :=
  fun x => if x = k then some v else m x

/-- `Map.delete`. -/
def mapDelete {α : Type} (m : String → Option α) (k : String) :
    String → Option α :=
  fun x => if x = k then none else m x

/-- Result of a `loadUserPermissions` call: the returned set, the cache state
after the call, and whether the resolver queries ran (as opposed to a cache
hit). -/
structure LoadResult where
  result : List String
  state : CacheState
  resolverQueried : Bool

/-- The cache-miss path of `loadUserPermissions` (rbac.ts lines 29-59):
run the resolver queries, store the result and a fresh timestamp under the
user's key, and return the set. -/
def loadMiss (db : RbacDb) (st : CacheState) (now : Nat) (u : String) :
    LoadResult :=
  let links := roleLinks db u
  if links.isEmpty then
    { result := []
      state := { permissionCache := mapSet st.permissionCache u []
                 cacheTimestamps := mapSet st.cacheTimestamps u now }
      resolverQueried := true }
  else
    let permSet := (grantSlugs db links).dedup
    { result := permSet
      state := { permissionCache := mapSet st.permissionCache u permSet
                 cacheTimestamps := mapSet st.cacheTimestamps u now }
      resolverQueried := true }

/-- `loadUserPermissions` (rbac.ts lines 20-60).  The hit condition mirrors
`if (cached && ts && Date.now() - ts < CACHE_TTL_MS)`: a `Set` is always
truthy when present, a numeric timestamp is truthy when present and nonzero,
and `Date.now() - ts` on JS numbers is below the TTL whenever `ts` is in the
future, which truncated `Nat` subtraction reproduces. -/
def loadUserPermissions (db : RbacDb) (st : CacheState) (now : Nat)
    (u : String) : LoadResult :=
  match st.permissionCache u, st.cacheTimestamps u with
  | some cached, some ts =>
    if ts ≠ 0 ∧ now - ts < CACHE_TTL_MS then
      { result := cached, state := st, resolverQueried := false }
    else loadMiss db st now u
  | _, _ => loadMiss db st now u

/-- `clearPermissionCache` (rbac.ts lines 65-68). -/
def clearPermissionCache (st : CacheState) (u : String) : CacheState :=
  { permissionCache := mapDelete st.permissionCache u
    cacheTimestamps := mapDelete st.cacheTimestamps u }

/-- `clearAllPermissionCaches` (rbac.ts lines 73-76). -/
def clearAllPermissionCaches (_st : CacheState) : CacheState :=
  { permissionCache := fun _ => none
    cacheTimestamps := fun _ => none }

/-! ## Authorization middleware gates (src/middleware/rbac.ts) -/

/-- The authenticated identity attached to a request (`req.user`), as far as
the gates consult it. -/
structure AuthUser where
  userId : String
  email : String
deriving DecidableEq, Repr

/-- Visible outcome of one gate invocation: whether `next()` was called, the
HTTP status and message otherwise, and whether any permission/role lookup was
performed before responding. -/
structure GateReply where
  nextCalled : Bool
  status : Nat
  message : String
  lookupPerformed : Bool
deriving DecidableEq, Repr

/-- `requirePermissions(...requiredPermissions)` (rbac.ts lines 81-135).
`!authUser?.userId` is true when `req.user` is absent or its `userId` is the
empty string. -/
def requirePermissions (required : List String) (db : RbacDb)
    (st : CacheState) (now : Nat) (user : Option AuthUser) :
    GateReply × CacheState :=
  match user with
  | none => (⟨false, 401, "Authentication required", false⟩, st)
  | some au =>
    if au.userId = "" then (⟨false, 401, "Authentication required", false⟩, st)
    else
      let r := loadUserPermissions db st now au.userId
      let missing := required.filter (fun p => !(r.result.contains p))
      if missing.isEmpty then (⟨true, 0, "", true⟩, r.state)
      else (⟨false, 403, "Insufficient permissions", true⟩, r.state)

/-- `requireAnyPermission(...permissions)` (rbac.ts lines 140-182). -/
def requireAnyPermission (perms : List String) (db : RbacDb)
    (st : CacheState) (now : Nat) (user : Option AuthUser) :
    GateReply × CacheState :=
  match user with
  | none => (⟨false, 401, "Authentication required", false⟩, st)
  | some au =>
    if au.userId = "" then (⟨false, 401, "Authentication required", false⟩, st)
    else
      let r := loadUserPermissions db st now au.userId
      let hasPermission := perms.any (fun p => r.result.contains p)
      if hasPermission then (⟨true, 0, "", true⟩, r.state)
      else (⟨false, 403, "Insufficient permissions", true⟩, r.state)

/-- `requireRole(...roleNames)` (rbac.ts lines 187-249): bypasses the cache,
re-queries the user's role links and the matching `roles` rows, and compares
by role name or slug. -/
def requireRole (roleNames : List String) (db : RbacDb)
    (user : Option AuthUser) : GateReply :=
  match user with
  | none => ⟨false, 401, "Authentication required", false⟩
  | some au =>
    if au.userId = "" then ⟨false, 401, "Authentication required", false⟩
    else
      let links := roleLinks db au.userId
      if links.isEmpty then ⟨false, 403, "No roles assigned", true⟩
      else
        let records := db.roles.filter (fun ro => links.contains ro.id)
        let hasRole := records.any (fun ro =>
          roleNames.contains ro.name || roleNames.contains ro.slug)
        if hasRole then ⟨true, 0, "", true⟩
        else ⟨false, 403, "Required role not assigned", true⟩

/-! ## Authentication middleware (src/middleware/auth.ts) -/

/-- Possible outcomes of `jwt.verify` inside `AuthUtils.verifyToken`:
success, a `TokenExpiredError`, a `JsonWebTokenError` (bad signature /
malformed token), or any other thrown error. -/
inductive VerifyOutcome where
  | ok (userId email : String)
  | tokenExpired
  | jsonWebTokenError
  | otherError
deriving DecidableEq, Repr

/-- Visible outcome of the authentication middleware. -/
structure MwReply where
  nextCalled : Bool
  status : Nat
  message : String
deriving DecidableEq, Repr

/-- Bearer-prefix stripping (auth.ts lines 30-32):
`authHeader.startsWith("Bearer ") ? authHeader.substring(7) : authHeader`,
expressed over the character list so that it evaluates by reduction. -/
def extractToken (h : String) : String :=
  if "Bearer ".data.isPrefixOf h.data then ⟨h.data.drop 7⟩ else h

/-- `authMiddleware` (auth.ts lines 15-73), parametric in the verifier.  A
missing or empty `authorization` header is rejected up front; a thrown
verification error is mapped to a message by its error class. -/
def authMiddleware (authHeader : Option String)
    (verify : String → VerifyOutcome) : MwReply :=
  match authHeader with
  | none => ⟨false, 401, "Access token is required"⟩
  | some h =>
    if h = "" then ⟨false, 401, "Access token is required"⟩
    else
      let token := extractToken h
      if token = "" then ⟨false, 401, "Access token is required"⟩
      else
        match verify token with
        | .ok _ _ => ⟨true, 0, ""⟩
        | .tokenExpired => ⟨false, 401, "Access token has expired"⟩
        | .jsonWebTokenError => ⟨false, 401, "Invalid access token"⟩
        | .otherError => ⟨false, 401, "Authentication failed"⟩

/-! ## Credential store and token service (src/utils, part_001)

bcrypt hashes are modelled as the (salt, input) pair; signed JWTs as an
inductive of payloads. -/

/-- Claims of a refresh token (`generateRefreshToken` payload). -/
structure RefreshClaims where
  userId : String
  email : String
deriving DecidableEq, Repr

/-- A bearer token string: either a well-signed refresh token, a well-signed
access token, or a string that fails `jwt.verify`. -/
inductive BearerToken where
  | signedRefresh (claims : RefreshClaims) (exp : Nat)
  | signedAccess (userId email : String) (roles : List String) (exp : Nat)
  | garbage (raw : String)
deriving DecidableEq, Repr

/-- `AuthUtils.hashToken(token) = bcrypt.hash(token, 10)` (utils line 130-132):
bcrypt draws a fresh random salt on every call and embeds it in the output, so
the hash is modelled as the pair of that salt and the hashed token.  Two such
hashes are equal exactly when both the salt and the token agree. -/
def hashToken (salt : Nat) (tok : BearerToken) : Nat × BearerToken :=
  (salt, tok)

/-- A bcrypt password hash: the drawn salt paired with the hashed password. -/
def hashPassword (salt : Nat) (password : String) : Nat × String :=
  (salt, password)

/-- `AuthUtils.comparePassword = bcrypt.compare`: extracts the salt embedded in
the hash, re-hashes, and compares — so it succeeds exactly when the hash was
produced from the same password, whatever its salt. -/
def comparePassword (password : String) (hash : Nat × String) : Bool :=
  hash.2 == password

/-- `AuthUtils.verifyRefreshToken = jwt.verify` wrapped in try/catch returning
null (utils lines 146-152): succeeds on any well-signed unexpired token (the
payload type is not checked) and returns the userId/email claims. -/
def verifyRefreshToken (tok : BearerToken) (now : Nat) : Option RefreshClaims :=
  match tok with
  | .signedRefresh c exp => if now < exp then some c else none
  | .signedAccess uid em _ exp => if now < exp then some ⟨uid, em⟩ else none
  | .garbage _ => none

/-! ## Account and token-record rows (src/db/schema/tables.ts) -/

/-- A row of the `system_users` table, restricted to the columns the
authentication flow reads or writes. -/
structure SystemUserRow where
  id : String
  email : String
  passwordHash : Nat × String
  isActive : Bool
  isLocked : Bool
  lockReason : Option String
  lockedAt : Option Nat
  lockedUntil : Option Nat
  failedLoginAttempts : Option Nat
  lastFailedLoginAt : Option Nat
  lastSuccessfulLoginAt : Option Nat
  lastActivityAt : Option Nat
deriving DecidableEq, Repr

/-- A row of the `authentication_tokens` table, restricted to the columns the
refresh/logout flows touch. -/
structure AuthTokenRow where
  userId : String
  tokenType : String
  tokenHash : Nat × BearerToken
  isActive : Bool
  expiresAt : Nat
  revokedAt : Option Nat
deriving DecidableEq, Repr

/-- The database as the authentication controller sees it. -/
structure AuthDb where
  systemUsers : List SystemUserRow
  authTokens : List AuthTokenRow
  rbac : RbacDb
deriving DecidableEq, Repr

/-- `UPDATE system_users SET ... WHERE id = uid`, applied through a row
transformer. -/
def updateWhere (l : List SystemUserRow) (uid : String)
    (f : SystemUserRow → SystemUserRow) : List SystemUserRow :=
  l.map (fun r => if r.id == uid then f r else r)

/-- `SELECT ... FROM system_users WHERE email = e` followed by taking the
first joined row's user. -/
def findByEmail (db : AuthDb) (e : String) : Option SystemUserRow :=
  db.systemUsers.find? (fun r => r.email == e)

/-- The lock check of `login` (auth.ts line 277):
`user.isLocked && user.lockedUntil && user.lockedUntil > new Date()`. -/
def lockInEffect (u : SystemUserRow) (now : Nat) : Bool :=
  u.isLocked &&
    (match u.lockedUntil with
     | some t => decide (now < t)
     | none => false)

/-- The role names of the `login` join
(`leftJoin(userRoles).leftJoin(roles)` filtered to rows with a role). -/
def userRoleNames (db : RbacDb) (u : String) : List String :=
  (db.userRoles.filter (fun ur => ur.userId == u)).flatMap
    (fun ur => (db.roles.filter (fun ro => ro.id == ur.roleId)).map
      (fun ro => ro.name))

/-- Lock duration on reaching the threshold: 30 minutes in ms
(auth.ts line 307). -/
def LOCK_DURATION_MS : Nat := 30 * 60 * 1000

/-- Refresh-token record lifetime: 7 days in ms (auth.ts line 391). -/
def REFRESH_RECORD_MS : Nat := 7 * 24 * 60 * 60 * 1000

/-- The row update applied by `login` on a failed password check (auth.ts
lines 299-311): bump the counter, stamp the failure, and when the threshold
is reached set the lock fields with a 30-minute expiry. -/
def loginFailUpdate (now newFailedAttempts : Nat) (shouldLock : Bool)
    (r : SystemUserRow) : SystemUserRow :=
  let r1 := { r with failedLoginAttempts := some newFailedAttempts
                     lastFailedLoginAt := some now }
  if shouldLock then
    { r1 with isLocked := true
              lockedAt := some now
              lockedUntil := some (now + LOCK_DURATION_MS)
              lockReason := some "Too many failed login attempts" }
  else r1

/-- The row update applied by `login` on success (auth.ts lines 331-343):
reset the counter and clear every lock field. -/
def loginSuccessUpdate (now : Nat) (r : SystemUserRow) : SystemUserRow :=
  { r with failedLoginAttempts := some 0
           lastFailedLoginAt := none
           lastSuccessfulLoginAt := some now
           lastActivityAt := some now
           isLocked := false
           lockedAt := none
           lockedUntil := none
           lockReason := none }

/-- The last-activity update (auth.ts lines 534-537 and 584-589). -/
def touchActivity (now : Nat) (r : SystemUserRow) : SystemUserRow :=
  { r with lastActivityAt := some now }

/-- The externally visible part of an authentication response: HTTP status,
`success` flag, and message. -/
structure ApiReply where
  status : Nat
  success : Bool
  message : String
deriving DecidableEq, Repr

/-- `AuthController.login` (auth.ts lines 216-438).  `now` is `Date.now()`;
`pwSalt`/`tokSalt` are the salts bcrypt draws for this call's hashes.  Returns
the visible reply, the issued tokens when successful, and the database after
the call. -/
def login (db : AuthDb) (email password : String) (now : Nat)
    (tokSalt : Nat) : (ApiReply × Option BearerToken × Option BearerToken) × AuthDb :=
  match findByEmail db email with
  | none => ((⟨401, false, "Invalid email or password"⟩, none, none), db)
  | some user =>
    if !user.isActive then
      ((⟨401, false, "Account is inactive"⟩, none, none), db)
    else if lockInEffect user now then
      ((⟨401, false, "Account is temporarily locked"⟩, none, none), db)
    else if !(comparePassword password user.passwordHash) then
      let newFailedAttempts := user.failedLoginAttempts.getD 0 + 1
      let shouldLock := decide (newFailedAttempts ≥ 5)
      let db1 := { db with
        systemUsers := updateWhere db.systemUsers user.id
          (loginFailUpdate now newFailedAttempts shouldLock) }
      ((⟨401, false, "Invalid email or password"⟩, none, none), db1)
    else
      let db1 := { db with
        systemUsers := updateWhere db.systemUsers user.id
          (loginSuccessUpdate now) }
      let roleNames := userRoleNames db.rbac user.id
      let accessToken := BearerToken.signedAccess user.id user.email roleNames
        (now + 24 * 60 * 60 * 1000)
      let refreshToken := BearerToken.signedRefresh ⟨user.id, user.email⟩
        (now + REFRESH_RECORD_MS)
      let db2 := { db1 with authTokens := db1.authTokens ++
        [{ userId := user.id
           tokenType := "refresh"
           tokenHash := hashToken tokSalt refreshToken
           isActive := true
           expiresAt := now + REFRESH_RECORD_MS
           revokedAt := none }] }
      ((⟨200, true, "Login successful"⟩, some accessToken, some refreshToken), db2)

/-- `AuthController.refresh` (auth.ts lines 443-556).  `tokSalt` is the salt
bcrypt draws for this call's `hashToken`. -/
def refresh (db : AuthDb) (tok : BearerToken) (now : Nat) (tokSalt : Nat) :
    (ApiReply × Option BearerToken) × AuthDb :=
  match verifyRefreshToken tok now with
  | none => ((⟨401, false, "Invalid refresh token"⟩, none), db)
  | some claims =>
    let tokenHash := hashToken tokSalt tok
    match db.authTokens.find? (fun r =>
        r.userId == claims.userId && r.tokenHash == tokenHash &&
        r.tokenType == "refresh" && r.isActive) with
    | none => ((⟨401, false, "Refresh token expired or not found"⟩, none), db)
    | some record =>
      if record.expiresAt < now then
        ((⟨401, false, "Refresh token expired or not found"⟩, none), db)
      else
        match db.systemUsers.find? (fun r => r.id == claims.userId) with
        | none => ((⟨401, false, "User not found or inactive"⟩, none), db)
        | some user =>
          if !user.isActive then
            ((⟨401, false, "User not found or inactive"⟩, none), db)
          else
            let roleNames := userRoleNames db.rbac user.id
            let accessToken := BearerToken.signedAccess user.id user.email
              roleNames (now + 24 * 60 * 60 * 1000)
            let db1 := { db with
              systemUsers := updateWhere db.systemUsers user.id
                (touchActivity now) }
            ((⟨200, true, "Token refreshed successfully"⟩, some accessToken), db1)

/-- `AuthController.logout` (auth.ts lines 561-605).  If a refresh token is
supplied, the matching-by-hash refresh records are marked inactive; if an
authenticated identity is known (`req.user?.userId` truthy), its last-activity
timestamp is updated; the reply is always a success. -/
def logout (db : AuthDb) (refreshTok : Option BearerToken)
    (reqUserId : Option String) (now : Nat) (tokSalt : Nat) :
    ApiReply × AuthDb :=
  let db1 :=
    match refreshTok with
    | some tok =>
      let tokenHash := hashToken tokSalt tok
      { db with authTokens := db.authTokens.map (fun r =>
          if r.tokenHash == tokenHash && r.tokenType == "refresh" then
            { r with isActive := false, revokedAt := some now }
          else r) }
    | none => db
  let db2 :=
    match reqUserId with
    | some uid =>
      if uid = "" then db1
      else
        { db1 with
          systemUsers := updateWhere db1.systemUsers uid (touchActivity now) }
    | none => db1
  (⟨200, true, "Logged out successfully"⟩, db2)

/-! ## General lemmas about the cache operations -/

theorem mapSet_same {α : Type} (m : String → Option α) (k : String) (v : α) :
    mapSet m k v k = some v := by
  simp [mapSet]

theorem loadMiss_result_eq (db : RbacDb) (st : CacheState) (now : Nat)
    (u : String) :
    (loadMiss db st now u).result = resolvePermissions db u := by
  by_cases h : (roleLinks db u).isEmpty <;>
    simp [loadMiss, resolvePermissions, h]

theorem loadMiss_ts (db : RbacDb) (st : CacheState) (now : Nat) (u : String) :
    (loadMiss db st now u).state.cacheTimestamps u = some now := by
  by_cases h : (roleLinks db u).isEmpty <;> simp [loadMiss, h, mapSet_same]

theorem loadMiss_cache (db : RbacDb) (st : CacheState) (now : Nat)
    (u : String) :
    (loadMiss db st now u).state.permissionCache u =
      some (loadMiss db st now u).result := by
  by_cases h : (roleLinks db u).isEmpty <;> simp [loadMiss, h, mapSet_same]

theorem loadMiss_queried (db : RbacDb) (st : CacheState) (now : Nat)
    (u : String) :
    (loadMiss db st now u).resolverQueried = true := by
  by_cases h : (roleLinks db u).isEmpty <;> simp [loadMiss, h]

theorem loadMiss_state_other (db : RbacDb) (st : CacheState) (now : Nat)
    (u x : String) (hx : x ≠ u) :
    (loadMiss db st now u).state.permissionCache x = st.permissionCache x ∧
    (loadMiss db st now u).state.cacheTimestamps x = st.cacheTimestamps x := by
  by_cases h : (roleLinks db u).isEmpty <;> simp [loadMiss, h, mapSet, hx]

/-! ## C2: cache freshness and global invalidation -/

/-- C2.  A `loadUserPermissions` call at time `now` leaves (and returns) a set
whose stored computation timestamp is no earlier than `now - CACHE_TTL_MS`;
and after `clearAllPermissionCaches()`, the next call for any account runs the
resolver queries and returns exactly the resolver's result rather than any
previously cached entry. -/
theorem cache_freshness_and_global_invalidation (db db2 : RbacDb)
    (st st2 : CacheState) (now now2 : Nat) (u u2 : String) :
    (∃ t, (loadUserPermissions db st now u).state.cacheTimestamps u = some t ∧
      (loadUserPermissions db st now u).state.permissionCache u =
        some (loadUserPermissions db st now u).result ∧
      now - CACHE_TTL_MS ≤ t ∧ now - t < CACHE_TTL_MS) ∧
    ((loadUserPermissions db2 (clearAllPermissionCaches st2) now2 u2).resolverQueried
        = true ∧
      (loadUserPermissions db2 (clearAllPermissionCaches st2) now2 u2).result =
        resolvePermissions db2 u2) := by
  constructor
  · unfold loadUserPermissions
    rcases hc : st.permissionCache u with _ | cached <;>
      rcases ht : st.cacheTimestamps u with _ | ts <;>
      simp only
    case none.none | none.some | some.none =>
      exact ⟨now, loadMiss_ts db st now u,
        loadMiss_cache db st now u, by omega, by simp [CACHE_TTL_MS]⟩
    case some.some =>
      by_cases hguard : ts ≠ 0 ∧ now - ts < CACHE_TTL_MS
      · rw [if_pos hguard]
        exact ⟨ts, ht, hc, by omega, hguard.2⟩
      · rw [if_neg hguard]
        exact ⟨now, loadMiss_ts db st now u,
          loadMiss_cache db st now u, by omega, by simp [CACHE_TTL_MS]⟩
  · constructor
    · exact loadMiss_queried db2 (clearAllPermissionCaches st2) now2 u2
    · exact loadMiss_result_eq db2 (clearAllPermissionCaches st2) now2 u2

/-! ## C10: the two cache maps always hold the same keys -/

/-- The invariant that an account id is a key of `permissionCache` exactly
when it is a key of `cacheTimestamps`. -/
def keysAligned (st : CacheState) : Prop :=
  ∀ x, (st.permissionCache x).isSome ↔ (st.cacheTimestamps x).isSome

/-- C10.  Every cache operation — `loadUserPermissions`,
`clearPermissionCache`, `clearAllPermissionCaches` — preserves the invariant
that the two module-level maps hold exactly the same keys. -/
theorem cache_key_maps_stay_aligned (db : RbacDb) (st : CacheState)
    (now : Nat) (u v : String) (h : keysAligned st) :
    keysAligned (loadUserPermissions db st now u).state ∧
    keysAligned (clearPermissionCache st v) ∧
    keysAligned (clearAllPermissionCaches st) := by
  have hmiss : keysAligned (loadMiss db st now u).state := by
    intro x
    by_cases hx : x = u
    · subst hx
      rw [loadMiss_cache, loadMiss_ts]
      simp
    · rw [(loadMiss_state_other db st now u x hx).1,
        (loadMiss_state_other db st now u x hx).2]
      exact h x
  refine ⟨?_, ?_, ?_⟩
  · unfold loadUserPermissions
    rcases hc : st.permissionCache u with _ | cached <;>
      rcases ht : st.cacheTimestamps u with _ | ts <;>
      simp only
    case none.none | none.some | some.none => exact hmiss
    case some.some =>
      by_cases hguard : ts ≠ 0 ∧ now - ts < CACHE_TTL_MS
      · rw [if_pos hguard]; exact h
      · rw [if_neg hguard]; exact hmiss
  · intro x
    by_cases hx : x = v <;> simp [clearPermissionCache, mapDelete, hx, h x]
  · intro x
    simp [clearAllPermissionCaches]

/-- A cache state with no entries, and a small role/permission database, used
to instantiate the hypotheses of the universally quantified theorems. -/
def emptyCache : CacheState :=
  { permissionCache := fun _ => none
    cacheTimestamps := fun _ => none }

/-- Witness for C10: the alignment invariant holds of the empty cache and is
preserved through each operation on it. -/
theorem cache_key_maps_stay_aligned_witness :
    keysAligned (loadUserPermissions ⟨[], [], [], []⟩ emptyCache 5 "u1").state ∧
    keysAligned (clearPermissionCache emptyCache "u2") ∧
    keysAligned (clearAllPermissionCaches emptyCache) :=
  cache_key_maps_stay_aligned ⟨[], [], [], []⟩ emptyCache 5 "u1" "u2"
    (fun _ => Iff.rfl)

/-! ## C4: gates reject unauthenticated requests first -/

/-- C4.  Each of the three gate constructors, invoked on a request with no
authenticated identity, responds 401 "Authentication required" (never 403),
leaves the cache untouched, and performs no permission or role lookup,
whatever the required lists and whatever the database holds. -/
theorem gates_reject_unauthenticated_first (required perms roleNames :
    List String) (db : RbacDb) (st : CacheState) (now : Nat) :
    requirePermissions required db st now none =
      (⟨false, 401, "Authentication required", false⟩, st) ∧
    requireAnyPermission perms db st now none =
      (⟨false, 401, "Authentication required", false⟩, st) ∧
    requireRole roleNames db none =
      ⟨false, 401, "Authentication required", false⟩ :=
  ⟨rfl, rfl, rfl⟩

/-! ## C9: an empty requirement list always passes -/

/-- C9.  A gate built by `requirePermissions` with no required permissions
calls `next()` for every authenticated user, regardless of the database
contents: the computed missing-permission list is the empty filter. -/
theorem empty_requirement_gate_passes (db : RbacDb) (st : CacheState)
    (now : Nat) (au : AuthUser) (h : au.userId ≠ "") :
    (requirePermissions [] db st now (some au)).1 = ⟨true, 0, "", true⟩ := by
  simp [requirePermissions, h]

/-- Witness for C9 at a concrete authenticated user and database. -/
theorem empty_requirement_gate_passes_witness :
    (requirePermissions [] ⟨[], [], [], []⟩ emptyCache 5
        (some ⟨"u1", "a@x"⟩)).1 = ⟨true, 0, "", true⟩ :=
  empty_requirement_gate_passes ⟨[], [], [], []⟩ emptyCache 5 ⟨"u1", "a@x"⟩
    (by decide)

/-! ## C1: what the resolver actually unions over -/

/-- A database with a single role assignment that is marked inactive: the
assigned role is active and grants `visitors:read`. -/
def rbacDbInactiveAssignment : RbacDb :=
  { userRoles := [{ userId := "u1", roleId := "r1", assignedAt := 0,
                    expiresAt := none, isActive := false }]
    roles := [{ id := "r1", organizationId := "o1", name := "Receptionist",
                slug := "receptionist", isActive := true }]
    rolePermissions := [{ roleId := "r1", permissionId := "p1",
                          granted := true }]
    permissions := [{ id := "p1", slug := "visitors:read" }] }

/-- Counterexample to C1 as stated: a permission reachable only through an
assignment with `isActive = false` is nevertheless in the resolver's result,
while the spec-side resolver excludes it. -/
theorem resolver_counts_inactive_assignment :
    "visitors:read" ∈ resolvePermissions rbacDbInactiveAssignment "u1" ∧
    "visitors:read" ∉ specResolvePermissions rbacDbInactiveAssignment 5 "u1" := by
  decide

/-- C1 as amended.  The resolver query of `loadUserPermissions` returns the
union of permission slugs over every `user_roles` row of the account — with no
filtering on the assignment's `isActive` or `expiresAt`, the role's
`isActive`, or the grant's `granted` flag: a slug is in the result exactly
when some assignment row of the user joins through some grant row to a
permission row carrying it. -/
theorem resolver_unions_all_assignment_rows (db : RbacDb) (st : CacheState)
    (now : Nat) (u s : String) :
    (loadMiss db st now u).result = resolvePermissions db u ∧
    (s ∈ resolvePermissions db u ↔
      ∃ ur ∈ db.userRoles, ur.userId = u ∧
        ∃ rp ∈ db.rolePermissions, rp.roleId = ur.roleId ∧
          ∃ p ∈ db.permissions, p.id = rp.permissionId ∧ p.slug = s) := by
  refine ⟨loadMiss_result_eq db st now u, ?_⟩
  by_cases h : (roleLinks db u).isEmpty
  · have hnil : resolvePermissions db u = [] := by
      simp [resolvePermissions, h]
    rw [hnil]
    simp only [List.not_mem_nil, false_iff]
    rintro ⟨ur, hur, hu, -⟩
    rw [List.isEmpty_iff, roleLinks, List.map_eq_nil_iff,
      List.filter_eq_nil_iff] at h
    exact h ur hur (by simp [hu])
  · have hne : resolvePermissions db u =
        (grantSlugs db (roleLinks db u)).dedup := by
      simp [resolvePermissions, h]
    rw [hne, List.mem_dedup]
    simp only [grantSlugs, roleLinks, List.mem_flatMap, List.mem_filter,
      List.mem_map, List.elem_iff, beq_iff_eq]
    constructor
    · rintro ⟨rp, ⟨hrp, ur, ⟨hur, hu⟩, hrid⟩, p, ⟨hp, hpid⟩, hslug⟩
      exact ⟨ur, hur, hu, rp, hrp, hrid.symm, p, hp, hpid, hslug⟩
    · rintro ⟨ur, hur, hu, rp, hrp, hrid, p, hp, hpid, hslug⟩
      exact ⟨rp, ⟨hrp, ur, ⟨hur, hu⟩, hrid.symm⟩, p, ⟨hp, hpid⟩, hslug⟩

/-! ## C7: the authentication middleware's failure responses -/

/-- Counterexample to C7 as stated: an expired token and a token failing
signature verification receive different messages from `authMiddleware`, so
the error does reveal which failure occurred. -/
theorem authmw_expired_vs_invalid_differ :
    (authMiddleware (some "Bearer t") (fun _ => .tokenExpired)).message ≠
    (authMiddleware (some "Bearer t") (fun _ => .jsonWebTokenError)).message := by
  decide

/-- C7 as amended.  Every bearer-token verification failure in the
authentication middleware is rejected with status 401, but the response
message distinguishes the cases: an expired token yields
"Access token has expired" while a signature/malformed failure yields
"Invalid access token". -/
theorem authmw_always_401_but_message_distinguishes (h : Option String)
    (v v1 v2 : String → VerifyOutcome) (s : String)
    (hs : extractToken s ≠ "")
    (h1 : v1 (extractToken s) = .tokenExpired)
    (h2 : v2 (extractToken s) = .jsonWebTokenError) :
    ((authMiddleware h v).nextCalled = true ∨
      (authMiddleware h v).status = 401) ∧
    (authMiddleware (some s) v1) = ⟨false, 401, "Access token has expired"⟩ ∧
    (authMiddleware (some s) v2) = ⟨false, 401, "Invalid access token"⟩ := by
  have hsne : s ≠ "" := by
    intro he
    exact hs (by rw [he]; rfl)
  refine ⟨?_, ?_, ?_⟩
  · match h with
    | none => simp [authMiddleware]
    | some hh =>
      by_cases hhe : hh = ""
      · simp [authMiddleware, hhe]
      · by_cases hte : extractToken hh = "" <;>
          rcases hv : v (extractToken hh) with _ | _ | _ | _ <;>
            simp [authMiddleware, hhe, hte, hv]
  · simp [authMiddleware, hsne, hs, h1]
  · simp [authMiddleware, hsne, hs, h2]

/-- Witness for C7's amended theorem at a concrete header and concrete
verifiers. -/
theorem authmw_always_401_but_message_distinguishes_witness :
    (((authMiddleware (some "x") (fun _ => .otherError)).nextCalled = true ∨
      (authMiddleware (some "x") (fun _ => .otherError)).status = 401) ∧
    (authMiddleware (some "Bearer t") (fun _ => .tokenExpired)) =
      ⟨false, 401, "Access token has expired"⟩ ∧
    (authMiddleware (some "Bearer t") (fun _ => .jsonWebTokenError)) =
      ⟨false, 401, "Invalid access token"⟩) :=
  authmw_always_401_but_message_distinguishes (some "x")
    (fun _ => .otherError) (fun _ => .tokenExpired)
    (fun _ => .jsonWebTokenError) "Bearer t" (by decide) rfl rfl

/-! ## Lemmas about the login state updates -/

theorem find?_updateWhere (l : List SystemUserRow) (e : String)
    (u : SystemUserRow) (f : SystemUserRow → SystemUserRow)
    (hf : ∀ r, (f r).email = r.email)
    (h : l.find? (fun r => r.email == e) = some u) :
    (updateWhere l u.id f).find? (fun r => r.email == e) = some (f u) := by
  unfold updateWhere
  rw [List.find?_map]
  have hp : ((fun r : SystemUserRow => r.email == e) ∘
      (fun r => if r.id == u.id then f r else r)) =
      (fun r : SystemUserRow => r.email == e) := by
    funext r
    by_cases hr : r.id = u.id <;> simp [hr, hf]
  rw [hp, h]
  simp

theorem loginFailUpdate_email (now n : Nat) (b : Bool) (r : SystemUserRow) :
    (loginFailUpdate now n b r).email = r.email := by
  cases b <;> simp [loginFailUpdate]

/-! ## C6: which login rejections are distinguishable -/

/-- An account whose password hash was drawn with salt 1 over "pw". -/
def userWrongPw : SystemUserRow :=
  { id := "u2", email := "b@x", passwordHash := (1, "pw"), isActive := true
    isLocked := false, lockReason := none, lockedAt := none
    lockedUntil := none, failedLoginAttempts := some 0
    lastFailedLoginAt := none, lastSuccessfulLoginAt := none
    lastActivityAt := none }

/-- An account locked until time 1000. -/
def userLocked : SystemUserRow :=
  { id := "u3", email := "c@x", passwordHash := (1, "pw"), isActive := true
    isLocked := true, lockReason := some "Too many failed login attempts"
    lockedAt := some 10, lockedUntil := some 1000
    failedLoginAttempts := some 5, lastFailedLoginAt := some 10
    lastSuccessfulLoginAt := none, lastActivityAt := none }

/-- A database holding one ordinary account and one locked account. -/
def authDbTwoUsers : AuthDb :=
  { systemUsers := [userWrongPw, userLocked]
    authTokens := []
    rbac := ⟨[], [], [], []⟩ }

/-- Counterexample to C6 as stated: at time 50 a login against the locked
account and a login with an unknown email receive different messages, so the
locked case is distinguishable by the caller. -/
theorem login_locked_message_is_distinct :
    (login authDbTwoUsers "c@x" "pw" 50 7).1.1.message ≠
    (login authDbTwoUsers "ghost@x" "pw" 50 7).1.1.message := by
  decide

/-- C6 as amended.  An unknown email and a wrong password are rejected with
the identical generic 401 reply, so those two cases are indistinguishable to
the caller; a locked account, however, is rejected with the distinct message
"Account is temporarily locked" (still 401), so the locked case is
distinguishable. -/
theorem login_rejection_distinguishability (db : AuthDb)
    (e1 pw1 e2 pw2 e3 pw3 : String) (now s1 s2 s3 : Nat)
    (u2 u3 : SystemUserRow)
    (h1 : findByEmail db e1 = none)
    (h2 : findByEmail db e2 = some u2) (h2a : u2.isActive = true)
    (h2l : lockInEffect u2 now = false)
    (h2p : comparePassword pw2 u2.passwordHash = false)
    (h3 : findByEmail db e3 = some u3) (h3a : u3.isActive = true)
    (h3l : lockInEffect u3 now = true) :
    (login db e1 pw1 now s1).1.1 = ⟨401, false, "Invalid email or password"⟩ ∧
    (login db e2 pw2 now s2).1.1 = ⟨401, false, "Invalid email or password"⟩ ∧
    (login db e3 pw3 now s3).1.1 =
      ⟨401, false, "Account is temporarily locked"⟩ := by
  refine ⟨?_, ?_, ?_⟩
  · simp [login, h1]
  · simp [login, h2, h2a, h2l, h2p]
  · simp [login, h3, h3a, h3l]

/-- Witness for C6's amended theorem on the concrete two-user database. -/
theorem login_rejection_distinguishability_witness :
    (login authDbTwoUsers "a@x" "pw" 50 7).1.1 =
      ⟨401, false, "Invalid email or password"⟩ ∧
    (login authDbTwoUsers "b@x" "bad" 50 7).1.1 =
      ⟨401, false, "Invalid email or password"⟩ ∧
    (login authDbTwoUsers "c@x" "pw" 50 7).1.1 =
      ⟨401, false, "Account is temporarily locked"⟩ :=
  login_rejection_distinguishability authDbTwoUsers "a@x" "pw" "b@x" "bad"
    "c@x" "pw" 50 7 7 7 userWrongPw userLocked (by decide) (by decide)
    (by decide) (by decide) (by decide) (by decide) (by decide) (by decide)

/-! ## C5: the lockout state machine across three login attempts -/

/-- C5.  Starting from an unlocked account with 4 recorded consecutive
failures: a 5th failed verification at `now1` locks the account with expiry
`now1 + LOCK_DURATION_MS`; a correct-password attempt at `now2` inside the
window is rejected with the locked-account message and changes nothing; a
correct-password attempt at `now3` after the window succeeds, resets the
counter to 0, and clears the lock fields. -/
theorem lockout_threshold_lock_and_recovery (db : AuthDb)
    (e pwGood pwBad : String) (u : SystemUserRow)
    (now1 now2 now3 s1 s2 s3 : Nat)
    (hfind : findByEmail db e = some u)
    (hact : u.isActive = true)
    (hnl : lockInEffect u now1 = false)
    (hcnt : u.failedLoginAttempts = some 4)
    (hbad : comparePassword pwBad u.passwordHash = false)
    (hgood : comparePassword pwGood u.passwordHash = true)
    (ht2 : now2 < now1 + LOCK_DURATION_MS)
    (ht3 : now1 + LOCK_DURATION_MS ≤ now3) :
    (login db e pwBad now1 s1).1.1 =
      ⟨401, false, "Invalid email or password"⟩ ∧
    findByEmail (login db e pwBad now1 s1).2 e =
      some (loginFailUpdate now1 5 true u) ∧
    (loginFailUpdate now1 5 true u).isLocked = true ∧
    (loginFailUpdate now1 5 true u).lockedUntil =
      some (now1 + LOCK_DURATION_MS) ∧
    (loginFailUpdate now1 5 true u).failedLoginAttempts = some 5 ∧
    (login (login db e pwBad now1 s1).2 e pwGood now2 s2).1.1 =
      ⟨401, false, "Account is temporarily locked"⟩ ∧
    (login (login db e pwBad now1 s1).2 e pwGood now2 s2).2 =
      (login db e pwBad now1 s1).2 ∧
    (login (login db e pwBad now1 s1).2 e pwGood now3 s3).1.1 =
      ⟨200, true, "Login successful"⟩ ∧
    findByEmail (login (login db e pwBad now1 s1).2 e pwGood now3 s3).2 e =
      some (loginSuccessUpdate now3 (loginFailUpdate now1 5 true u)) ∧
    (loginSuccessUpdate now3 (loginFailUpdate now1 5 true u)).failedLoginAttempts
      = some 0 ∧
    (loginSuccessUpdate now3 (loginFailUpdate now1 5 true u)).isLocked
      = false ∧
    (loginSuccessUpdate now3 (loginFailUpdate now1 5 true u)).lockedUntil
      = none := by
  have hdb1 : (login db e pwBad now1 s1).2 =
      { db with systemUsers :=
          updateWhere db.systemUsers u.id (loginFailUpdate now1 5 true) } := by
    simp [login, hfind, hact, hnl, hbad, hcnt]
  have hfind1 : findByEmail (login db e pwBad now1 s1).2 e =
      some (loginFailUpdate now1 5 true u) := by
    rw [hdb1]
    unfold findByEmail at hfind ⊢
    exact find?_updateWhere db.systemUsers e u (loginFailUpdate now1 5 true)
      (loginFailUpdate_email now1 5 true) hfind
  have hact1 : (loginFailUpdate now1 5 true u).isActive = true := hact
  have hpw1 : comparePassword pwGood
      (loginFailUpdate now1 5 true u).passwordHash = true := hgood
  have hl2 : lockInEffect (loginFailUpdate now1 5 true u) now2 = true := by
    simp [lockInEffect, loginFailUpdate, ht2]
  have hl3 : lockInEffect (loginFailUpdate now1 5 true u) now3 = false := by
    simp [lockInEffect, loginFailUpdate]
    omega
  have step2 : ∀ d : AuthDb,
      findByEmail d e = some (loginFailUpdate now1 5 true u) →
      (login d e pwGood now2 s2).1.1 =
        ⟨401, false, "Account is temporarily locked"⟩ ∧
      (login d e pwGood now2 s2).2 = d := by
    intro d hd
    constructor <;> simp [login, hd, hact1, hl2]
  have step3 : ∀ d : AuthDb,
      findByEmail d e = some (loginFailUpdate now1 5 true u) →
      (login d e pwGood now3 s3).1.1 = ⟨200, true, "Login successful"⟩ ∧
      findByEmail (login d e pwGood now3 s3).2 e =
        some (loginSuccessUpdate now3 (loginFailUpdate now1 5 true u)) := by
    intro d hd
    refine ⟨by simp [login, hd, hact1, hl3, hpw1], ?_⟩
    have hdd : (login d e pwGood now3 s3).2 =
        { d with
          systemUsers := updateWhere d.systemUsers
            (loginFailUpdate now1 5 true u).id (loginSuccessUpdate now3)
          authTokens := d.authTokens ++
            [{ userId := (loginFailUpdate now1 5 true u).id
               tokenType := "refresh"
               tokenHash := hashToken s3 (BearerToken.signedRefresh
                 ⟨(loginFailUpdate now1 5 true u).id,
                   (loginFailUpdate now1 5 true u).email⟩
                 (now3 + REFRESH_RECORD_MS))
               isActive := true
               expiresAt := now3 + REFRESH_RECORD_MS
               revokedAt := none }] } := by
      simp [login, hd, hact1, hl3, hpw1]
    rw [hdd]
    unfold findByEmail at hd ⊢
    exact find?_updateWhere d.systemUsers e (loginFailUpdate now1 5 true u)
      (loginSuccessUpdate now3) (fun r => rfl) hd
  exact ⟨by simp [login, hfind, hact, hnl, hbad, hcnt], hfind1, rfl, rfl, rfl,
    (step2 _ hfind1).1, (step2 _ hfind1).2, (step3 _ hfind1).1,
    (step3 _ hfind1).2, rfl, rfl, rfl⟩

/-- An unlocked account with 4 recorded consecutive failed attempts. -/
def userNearLock : SystemUserRow :=
  { id := "u5", email := "d@x", passwordHash := (1, "pw"), isActive := true
    isLocked := false, lockReason := none, lockedAt := none
    lockedUntil := none, failedLoginAttempts := some 4
    lastFailedLoginAt := some 90, lastSuccessfulLoginAt := none
    lastActivityAt := none }

/-- A database holding only the near-lock account. -/
def authDbNearLock : AuthDb :=
  { systemUsers := [userNearLock]
    authTokens := []
    rbac := ⟨[], [], [], []⟩ }

/-- Witness for C5 on the near-lock account: the 5th failure at time 100
locks it until 1800100, a correct-password attempt at 200 is rejected as
locked, and a correct-password attempt at 1800100 succeeds and resets. -/
theorem lockout_threshold_lock_and_recovery_witness :
    (login authDbNearLock "d@x" "bad" 100 1).1.1 =
      ⟨401, false, "Invalid email or password"⟩ ∧
    findByEmail (login authDbNearLock "d@x" "bad" 100 1).2 "d@x" =
      some (loginFailUpdate 100 5 true userNearLock) ∧
    (loginFailUpdate 100 5 true userNearLock).isLocked = true ∧
    (loginFailUpdate 100 5 true userNearLock).lockedUntil =
      some (100 + LOCK_DURATION_MS) ∧
    (loginFailUpdate 100 5 true userNearLock).failedLoginAttempts = some 5 ∧
    (login (login authDbNearLock "d@x" "bad" 100 1).2 "d@x" "pw" 200 2).1.1 =
      ⟨401, false, "Account is temporarily locked"⟩ ∧
    (login (login authDbNearLock "d@x" "bad" 100 1).2 "d@x" "pw" 200 2).2 =
      (login authDbNearLock "d@x" "bad" 100 1).2 ∧
    (login (login authDbNearLock "d@x" "bad" 100 1).2 "d@x" "pw" 1800100 3).1.1
      = ⟨200, true, "Login successful"⟩ ∧
    findByEmail
      (login (login authDbNearLock "d@x" "bad" 100 1).2 "d@x" "pw" 1800100 3).2
      "d@x" =
      some (loginSuccessUpdate 1800100 (loginFailUpdate 100 5 true userNearLock)) ∧
    (loginSuccessUpdate 1800100
      (loginFailUpdate 100 5 true userNearLock)).failedLoginAttempts = some 0 ∧
    (loginSuccessUpdate 1800100
      (loginFailUpdate 100 5 true userNearLock)).isLocked = false ∧
    (loginSuccessUpdate 1800100
      (loginFailUpdate 100 5 true userNearLock)).lockedUntil = none :=
  lockout_threshold_lock_and_recovery authDbNearLock "d@x" "pw" "bad"
    userNearLock 100 200 1800100 1 2 3 (by decide) (by decide) (by decide)
    (by decide) (by decide) (by decide) (by decide) (by decide)

/-! ## C3: refresh-token lookup with a freshly salted hash -/

/-- The refresh token issued for account `u1`, expiring at time 5000. -/
def tokenForU1 : BearerToken := .signedRefresh ⟨"u1", "a@x"⟩ 5000

/-- A database in which `tokenForU1` was persisted at login time with bcrypt
salt 1: the record is active, unexpired, and of type refresh, and the account
is active. -/
def authDbWithRefreshRecord : AuthDb :=
  { systemUsers := [{ id := "u1", email := "a@x", passwordHash := (1, "pw")
                      isActive := true, isLocked := false, lockReason := none
                      lockedAt := none, lockedUntil := none
                      failedLoginAttempts := some 0, lastFailedLoginAt := none
                      lastSuccessfulLoginAt := none, lastActivityAt := none }]
    authTokens := [{ userId := "u1", tokenType := "refresh"
                     tokenHash := hashToken 1 tokenForU1, isActive := true
                     expiresAt := 5000, revokedAt := none }]
    rbac := ⟨[], [], [], []⟩ }

/-- C3 exhibit.  At time 50 the token's signature verifies and its embedded
expiry is in the future, the server-side record storing a hash of this very
token is active, of type refresh, and unexpired, and the account is active —
yet `refresh`, which recomputes `bcrypt.hash` with a freshly drawn salt (here
2) and looks the record up by hash equality, finds nothing and answers 401
instead of issuing a new access token. -/
theorem refresh_fresh_salt_finds_no_record :
    verifyRefreshToken tokenForU1 50 = some ⟨"u1", "a@x"⟩ ∧
    (authDbWithRefreshRecord.authTokens.any (fun r =>
      r.tokenHash == hashToken 1 tokenForU1 && r.tokenType == "refresh" &&
        r.isActive && decide (50 ≤ r.expiresAt))) = true ∧
    (authDbWithRefreshRecord.systemUsers.any (fun r =>
      r.id == "u1" && r.isActive)) = true ∧
    (refresh authDbWithRefreshRecord tokenForU1 50 2).1.1 =
      ⟨401, false, "Refresh token expired or not found"⟩ := by
  decide

/-! ## C8: logout replies and the fate of the token record -/

/-- The refresh token of account `u8`, expiring at time 5000. -/
def tokenForU8 : BearerToken := .signedRefresh ⟨"u8", "h@x"⟩ 5000

/-- A database holding the active server-side record of `tokenForU8`, stored
at login time with bcrypt salt 1. -/
def authDbWithU8Record : AuthDb :=
  { systemUsers := []
    authTokens := [{ userId := "u8", tokenType := "refresh"
                     tokenHash := hashToken 1 tokenForU8, isActive := true
                     expiresAt := 5000, revokedAt := none }]
    rbac := ⟨[], [], [], []⟩ }

/-- C8 exhibit.  `logout` always replies with the same success response, on
any database and any input — so calling it twice never errors — but supplying
the refresh token does not revoke its stored record: the revocation update
matches records by equality with a freshly salted bcrypt hash (salts 2 and 3
here), so after both calls the record is still active. -/
theorem logout_succeeds_twice_but_never_revokes :
    (∀ (d : AuthDb) (t : Option BearerToken) (uq : Option String) (n sl : Nat),
      (logout d t uq n sl).1 = ⟨200, true, "Logged out successfully"⟩) ∧
    ((logout authDbWithU8Record (some tokenForU8) none 50 2).2.authTokens.all
      (fun r => r.isActive)) = true ∧
    ((logout (logout authDbWithU8Record (some tokenForU8) none 50 2).2
        (some tokenForU8) none 60 3).2.authTokens.all
      (fun r => r.isActive)) = true :=
  ⟨fun _ _ _ _ _ => rfl, by decide, by decide⟩

end VMS
